import Mathlib

/-!
Shallow embedding of `src/backend/app/services/openai_service.py`
(class `OpenAISummaryService`), a service that templates prompts per
aviation-weather report kind, forwards them to a remote chat-completion
endpoint, and falls back to deterministic strings on failure.

Modelling conventions:
- `report_data` (a Python `Dict[str, Any]`) is modelled as an association
  list from field names to string values; `dict.get(key, default)` is
  `ReportData.get`.  The generic prompt embeds the textual representation
  of the dictionary (`pyDictRepr`, modelling Python `repr` of a
  string-valued dict).
- Python `str.strip()` is modelled by `pyStrip` (drop leading and trailing
  whitespace), and `str.startswith` by `pyStartswith`, both as structural
  list operations so concrete instances evaluate in the kernel.
- The remote call `self.client.chat.completions.create(...)` is modelled as
  a function from the request actually sent to an outcome that either
  raises an exception or returns a response object.  `generate_summary`
  additionally returns the request it sent (`none` when the remote
  dependency was never invoked), which makes "no network call" provable.
- The credential resolution in `__init__` takes the explicit argument, the
  `OPENAI_API_KEY` environment variable (absent values modelled as `none`)
  and the settings field as parameters; Python truthiness chaining with
  `or` is `pyOrStr`.
-/

/-- Report data dictionary: field name to string value, as an association
list (first binding wins, matching a dict with unique keys). -/
abbrev ReportData := List (String × String)

/-- Models Python `dict.get(key, default)` on a `ReportData`. -/
def ReportData.get (d : ReportData) (key dflt : String) : String :=
  (List.lookup key d).getD dflt

/-- Models Python `repr` of a string-valued dict, as interpolated by the
f-string of the generic prompt branch: `\x7b'k1': 'v1', 'k2': 'v2'\x7d`. -/
def pyDictRepr (d : ReportData) : String :=
  "\x7b" ++
    String.intercalate ", "
      (d.map (fun p => "\x27" ++ p.1 ++ "\x27: \x27" ++ p.2 ++ "\x27")) ++
  "\x7d"

/-- Models Python `str.strip()`: remove leading and trailing whitespace. -/
def pyStrip (s : String) : String :=
  ⟨((s.data.dropWhile Char.isWhitespace).reverse.dropWhile
      Char.isWhitespace).reverse⟩

/-- Models Python `s.startswith(pat)`. -/
def pyStartswith (s pat : String) : Bool :=
  List.isPrefixOf pat.data s.data

/-- Models Python `a or b` for an optional string `a` (both `None` and the
empty string are falsy) against a string `b`. -/
def pyOrStr (a : Option String) (b : String) : String :=
  match a with
  | none => b
  | some s => if s = "" then b else s

/-- Credential resolution chain of `__init__`, line 18:
`api_key or os.environ.get("OPENAI_API_KEY") or settings.OPENAI_API_KEY`. -/
def resolve_api_key (api_key env_key : Option String)
    (settings_key : String) : String :=
  pyOrStr api_key (pyOrStr env_key settings_key)

/-- Stored credential after `__init__`, lines 18-21: the resolved chain,
forced to `""` when falsy or when it starts with the placeholder marker
`"sk-your-"`. -/
def init_api_key (api_key env_key : Option String)
    (settings_key : String) : String :=
  let k := resolve_api_key api_key env_key settings_key
  if k == "" || pyStartswith k "sk-your-" then "" else k

/-- Model identifier fixed in `__init__`, line 25. -/
def service_model : String := "gpt-4o"

/-- Fallback builder `_generate_fallback_summary`, lines 72-84.  Note the
source has branches only for `"metar"`, `"taf"` and `"pirep"`; every other
`report_type` (including `"sigmet"`) takes the final `else` branch. -/
def generate_fallback_summary (report_type : String)
    (report_data : ReportData) : String :=
  if report_type = "metar" then
    "METAR for " ++ report_data.get "station" "unknown station" ++
    ".\n\nThis is automated weather data. Check the raw report for details.\n\nExercise caution and verify conditions before flight."
  else if report_type = "taf" then
    "TAF forecast for " ++ report_data.get "station" "unknown station" ++
    ".\n\nConsult the raw forecast for detailed weather predictions.\n\nPlan your flight carefully considering all available information."
  else if report_type = "pirep" then
    "Pilot report near " ++ report_data.get "location" "unknown location" ++
    ".\n\nReview the raw report for specific conditions reported.\n\nConsider these pilot observations in your flight planning."
  else
    "Weather information available.\n\nRefer to the raw data for complete details.\n\nEnsure thorough preflight planning."

/-- Generic fallback paragraph (the final `else` of lines 83-84). -/
def generic_fallback_text : String :=
  "Weather information available.\n\nRefer to the raw data for complete details.\n\nEnsure thorough preflight planning."

/-- Shared persona preamble of `_get_system_prompt`, line 88. -/
def base_prompt : String :=
  "You are an expert aviation weather briefing assistant providing detailed, accurate summaries for pilots. Your summaries should be comprehensive yet clear, focusing on operational impact and flight safety. "

/-- Kind-specific focus clause appended for `"metar"`, line 91. -/
def metar_focus : String :=
  "Analyze and summarize the METAR in plain language with a focus on flight safety. Provide a detailed assessment of ceiling, visibility, winds, pressure, and significant weather phenomena. Include implications for VFR/IFR operations and mention any concerning trends if apparent."

/-- Kind-specific focus clause appended for `"taf"`, line 94. -/
def taf_focus : String :=
  "Analyze the TAF forecast in detail, highlighting all operationally significant changes in weather conditions over the forecast period. Break down the forecast into clear time segments, focusing on changing IFR/VFR conditions, wind shifts, and hazardous weather. Include practical recommendations for flight planning."

/-- Kind-specific focus clause appended for `"pirep"`, line 97. -/
def pirep_focus : String :=
  "Provide a comprehensive analysis of this pilot report focusing on turbulence, icing, cloud tops, and other flight safety hazards. Be specific about altitude-dependent conditions, severity of hazards, and potential impact on different aircraft types. Include practical avoidance strategies when appropriate."

/-- Kind-specific focus clause appended for `"sigmet"`, line 100. -/
def sigmet_focus : String :=
  "Thoroughly analyze this SIGMET emphasizing the hazard, affected area, altitudes, timing, and movement. Provide clear details about the safety implications for flights in or near the affected area, and suggest potential mitigation strategies."

/-- Generic focus clause for any other kind, line 102. -/
def generic_focus : String :=
  "Provide a thorough and detailed analysis of this aviation weather information focusing on all flight safety implications and operational considerations."

/-- System instruction builder `_get_system_prompt`, lines 86-102. -/
def get_system_prompt (report_type : String) : String :=
  if report_type = "metar" then base_prompt ++ metar_focus
  else if report_type = "taf" then base_prompt ++ taf_focus
  else if report_type = "pirep" then base_prompt ++ pirep_focus
  else if report_type = "sigmet" then base_prompt ++ sigmet_focus
  else base_prompt ++ generic_focus

/-- Literal of the METAR f-string before the station interpolation. -/
def metar_prompt_pre : String :=
  "Create a detailed, pilot-friendly analysis of this METAR for "

/-- Literal of the METAR f-string between station and raw_text. -/
def metar_prompt_mid : String := ":\nRaw METAR: "

/-- Literal of the METAR f-string after the raw_text interpolation. -/
def metar_prompt_post : String :=
  "\n\nInclude the following in your summary:\n1. Flight category (VFR/MVFR/IFR/LIFR) with clear explanation of the determining factors\n2. Ceiling and visibility in plain language with operational impact\n3. Detailed wind conditions including gusts and crosswind components if significant\n4. All precipitation and weather phenomena with severity and implications\n5. Temperature/dewpoint analysis including potential for icing or fog formation\n6. Pressure trends and their significance\n7. Any specific hazards or concerns evident from the report\n\nFormat your response with clear sections and conclude with specific operational recommendations."

/-- Literal of the TAF f-string before the station interpolation. -/
def taf_prompt_pre : String :=
  "Create a detailed, pilot-friendly analysis of this TAF forecast for "

/-- Literal of the TAF f-string between station and raw_text. -/
def taf_prompt_mid : String := ":\nRaw TAF: "

/-- Literal of the TAF f-string after the raw_text interpolation. -/
def taf_prompt_post : String :=
  "\n\nInclude the following in your analysis:\n1. Overall summary of weather evolution during the forecast period\n2. Detailed breakdown of each significant time period in chronological order\n3. Clear identification of all IFR or MVFR conditions with timing and duration\n4. Comprehensive wind analysis including direction shifts and gusting conditions\n5. Detailed description of all forecast weather phenomena and their intensity\n6. Identification of the most challenging period(s) during the forecast\n7. Specific operational considerations for takeoff, en route, and landing phases\n\nStructure your response with clearly organized sections by time period, and conclude with practical flight planning recommendations."

/-- Literal of the PIREP f-string before the raw_text interpolation. -/
def pirep_prompt_pre : String :=
  "Create a detailed, pilot-friendly analysis of this Pilot Report:\nRaw PIREP: "

/-- Literal of the PIREP f-string after the raw_text interpolation. -/
def pirep_prompt_post : String :=
  "\n\nInclude the following in your analysis:\n1. Aircraft type, precise location, and altitude of the report\n2. Detailed assessment of turbulence including type, intensity, and vertical extent\n3. Comprehensive icing information including type, severity, and altitude layer\n4. Thorough cloud information including bases, tops, layers, and coverage\n5. Visibility conditions and any obscuring phenomena\n6. Time context of the report and its current relevance\n7. Correlation with forecast conditions if apparent\n\nFormat your response with clear sections and conclude with specific operational recommendations for pilots in the area."

/-- Literal of the SIGMET f-string before the raw_text interpolation. -/
def sigmet_prompt_pre : String :=
  "Create a detailed, pilot-friendly analysis of this SIGMET:\nRaw SIGMET: "

/-- Literal of the SIGMET f-string after the raw_text interpolation. -/
def sigmet_prompt_post : String :=
  "\n\nInclude the following in your analysis:\n1. Precise identification of the hazard type and its severity\n2. Detailed geographic description of the affected area with key landmarks/waypoints\n3. Comprehensive altitude range information with flight level context\n4. Specific validity timeframe and remaining duration\n5. Movement, intensification, or dissipation trends of the hazard\n6. Potential impact on different phases of flight and aircraft categories\n7. Correlation with other weather data if apparent\n\nStructure your response with clear sections and conclude with specific avoidance or mitigation strategies."

/-- Literal of the generic f-string before the `report_data` interpolation. -/
def generic_prompt_pre : String :=
  "Please provide a comprehensive analysis of this aviation weather information with detailed operational implications for pilots: "

/-- User instruction builder `_create_prompt_for_report`, lines 104-167. -/
def create_prompt_for_report (report_type : String)
    (report_data : ReportData) : String :=
  if report_type = "metar" then
    metar_prompt_pre ++ report_data.get "station" "unknown station" ++
    metar_prompt_mid ++ report_data.get "raw_text" "No raw data available" ++
    metar_prompt_post
  else if report_type = "taf" then
    taf_prompt_pre ++ report_data.get "station" "unknown station" ++
    taf_prompt_mid ++ report_data.get "raw_text" "No raw data available" ++
    taf_prompt_post
  else if report_type = "pirep" then
    pirep_prompt_pre ++ report_data.get "raw_text" "No raw data available" ++
    pirep_prompt_post
  else if report_type = "sigmet" then
    sigmet_prompt_pre ++ report_data.get "raw_text" "No raw data available" ++
    sigmet_prompt_post
  else
    generic_prompt_pre ++ pyDictRepr report_data

/-- Message object of the remote response; `content` is `none` when the
Python attribute is `None` (in which case `.strip()` raises and the broad
`except` of lines 67-70 engages). -/
structure RespMessage where
  content : Option String
  deriving DecidableEq

/-- One element of `response.choices`. -/
structure RespChoice where
  message : RespMessage
  deriving DecidableEq

/-- Response object of the remote chat-completion call. -/
structure ChatResponse where
  choices : List RespChoice
  deriving DecidableEq

/-- Request sent by the remote call of lines 49-57.  The sampling
temperature 0.3 is recorded in tenths to stay in exact arithmetic. -/
structure ChatRequest where
  model : String
  messages : List (String × String)
  temperature_tenths : Nat
  max_tokens : Nat
  deriving DecidableEq

/-- Outcome of the remote chat-completion call: it either raises an
exception or returns a (non-`None`) response object. -/
inductive RemoteOutcome where
  | raises : RemoteOutcome
  | returns : ChatResponse → RemoteOutcome

/-- Embedding of `generate_summary`, lines 27-70, for a service whose
stored credential is `svc_api_key` and whose remote dependency behaves as
`remote`.  The first component is the returned `Optional[str]`; the second
is the request sent to the remote dependency, `none` when it was never
invoked.  Notes kept faithful to the source:
- line 38: a falsy (empty) credential short-circuits to `None` before any
  remote work;
- line 59: `if response and response.choices and len(response.choices) > 0`
  reduces, for a returned response object, to the choices list being
  non-empty;
- line 60: `content.strip()` on a `None` content raises `AttributeError`,
  which the `except` of line 67 turns into the fallback summary;
- line 60 returns the stripped text even when it is the empty string. -/
def generate_summary (svc_api_key : String)
    (remote : ChatRequest → RemoteOutcome) (report_type : String)
    (report_data : ReportData) : Option String × Option ChatRequest :=
  if svc_api_key = "" then (none, none)
  else
    let req : ChatRequest :=
      { model := service_model
        messages :=
          [("system", get_system_prompt report_type),
           ("user", create_prompt_for_report report_type report_data)]
        temperature_tenths := 3
        max_tokens := 600 }
    match remote req with
    | .raises =>
        (some (generate_fallback_summary report_type report_data), some req)
    | .returns resp =>
        match resp.choices with
        | [] => (none, some req)
        | choice :: _ =>
            match choice.message.content with
            | none =>
                (some (generate_fallback_summary report_type report_data),
                 some req)
            | some text => (some (pyStrip text), some req)

/-- Containment of `pat` in `s` as a verbatim substring. -/
def strContains (s pat : String) : Prop :=
  ∃ l r : String, l ++ pat ++ r = s

/-- Containment of a middle factor in a three-way append. -/
theorem strContains_append_append (a b x : String) :
    strContains (a ++ x ++ b) x :=
  ⟨a, b, rfl⟩

/-- C1 counterexample: for report_type "sigmet" the fallback text is the
generic template used for unrecognized kinds, not a sigmet-specific one. -/
theorem c1_sigmet_fallback_counterexample :
    generate_fallback_summary "sigmet" [("raw_text", "SIGMET ALFA")] =
      generic_fallback_text ∧
    generate_fallback_summary "sigmet" [] =
      generate_fallback_summary "unknown-type" [] := by
  exact ⟨rfl, rfl⟩

/-- C1 (amended): the fallback builder has a kind-specific template for
each of "metar", "taf" and "pirep" (each distinct from the generic
paragraph), and every other report_type — "sigmet" included — receives the
one generic template. -/
theorem c1_fallback_templates (report_type : String)
    (report_data : ReportData) (h1 : report_type ≠ "metar")
    (h2 : report_type ≠ "taf") (h3 : report_type ≠ "pirep") :
    generate_fallback_summary report_type report_data =
      generic_fallback_text ∧
    generate_fallback_summary "metar" report_data ≠ generic_fallback_text ∧
    generate_fallback_summary "taf" report_data ≠ generic_fallback_text ∧
    generate_fallback_summary "pirep" report_data ≠ generic_fallback_text := by
  refine ⟨by simp [generate_fallback_summary, generic_fallback_text, h1, h2, h3], ?_, ?_, ?_⟩
  all_goals
    intro h
    simp only [generate_fallback_summary, generic_fallback_text, if_true,
      reduceIte] at h
    have h2 := congrArg (fun s => s.data.head?) h
    simp [String.data_append] at h2

/-- C1 witness: the amended statement instantiated at "sigmet". -/
theorem c1_fallback_templates_witness :
    generate_fallback_summary "sigmet" [] = generic_fallback_text :=
  (c1_fallback_templates "sigmet" [] (by decide) (by decide) (by decide)).1

/-- C2 counterexample: with a configured credential and a well-formed
response whose single choice bears empty text, generate_summary returns
the empty string, not absent. -/
theorem c2_empty_text_counterexample :
    (generate_summary "sk-test123"
        (fun _ => RemoteOutcome.returns ⟨[⟨⟨some ""⟩⟩]⟩) "metar" []).1 =
      some "" := by
  rfl

/-- C2 (amended): with a configured credential, a well-formed response
with an empty choices list yields absent; a response whose first choice
bears the empty text yields the empty string (not absent, not the
fallback). -/
theorem c2_empty_response_behavior (key report_type : String)
    (d : ReportData) (hk : key ≠ "") :
    (generate_summary key (fun _ => RemoteOutcome.returns ⟨[]⟩)
        report_type d).1 = none ∧
    (generate_summary key
        (fun _ => RemoteOutcome.returns ⟨[⟨⟨some ""⟩⟩]⟩) report_type d).1 =
      some "" := by
  constructor <;> simp [generate_summary, hk, pyStrip]

/-- C2 witness: the amended statement instantiated at a concrete service. -/
theorem c2_empty_response_behavior_witness :
    (generate_summary "sk-live" (fun _ => RemoteOutcome.returns ⟨[]⟩)
        "taf" []).1 = none :=
  (c2_empty_response_behavior "sk-live" "taf" [] (by decide)).1

/-- C3: with a configured credential, when the remote call raises,
generate_summary swallows the exception and returns exactly the fallback
text for that report_type and report_data; for "metar" with station KSEA
the fallback starts with "METAR for KSEA." and contains
"Exercise caution". -/
theorem c3_exception_returns_fallback (key report_type : String)
    (d : ReportData) (hk : key ≠ "") :
    (generate_summary key (fun _ => RemoteOutcome.raises)
        report_type d).1 =
      some (generate_fallback_summary report_type d) ∧
    (∃ rest : String,
        generate_fallback_summary "metar" [("station", "KSEA")] =
          "METAR for KSEA." ++ rest) ∧
    strContains (generate_fallback_summary "metar" [("station", "KSEA")])
      "Exercise caution" := by
  refine ⟨by simp [generate_summary, hk],
    ⟨"\n\nThis is automated weather data. Check the raw report for details.\n\nExercise caution and verify conditions before flight.", rfl⟩,
    ⟨"METAR for KSEA.\n\nThis is automated weather data. Check the raw report for details.\n\n",
     " and verify conditions before flight.", rfl⟩⟩

/-- C3 witness: the exception path at a concrete service and report. -/
theorem c3_exception_returns_fallback_witness :
    (generate_summary "sk-live2" (fun _ => RemoteOutcome.raises) "metar"
        [("station", "KSEA")]).1 =
      some (generate_fallback_summary "metar" [("station", "KSEA")]) :=
  (c3_exception_returns_fallback "sk-live2" "metar" [("station", "KSEA")]
    (by decide)).1

/-- C4: with no usable credential the result is absent and the remote
dependency is never invoked (no request is sent), for every remote
behavior, report_type and report_data. -/
theorem c4_no_credential_no_call (remote : ChatRequest → RemoteOutcome)
    (report_type : String) (d : ReportData) :
    generate_summary "" remote report_type d = (none, none) :=
  rfl

/-- C5: with a configured credential, a response whose first choice bears
non-empty text yields that text stripped of surrounding whitespace and
otherwise unmodified; in particular " Clear skies expected. " strips to
"Clear skies expected.". -/
theorem c5_success_trims (key report_type text : String) (d : ReportData)
    (rest : List RespChoice) (hk : key ≠ "") (ht : text ≠ "") :
    (generate_summary key
        (fun _ => RemoteOutcome.returns ⟨⟨⟨some text⟩⟩ :: rest⟩)
        report_type d).1 = some (pyStrip text) ∧
    pyStrip " Clear skies expected. " = "Clear skies expected." :=
  ⟨by simp [generate_summary, hk], by decide⟩

/-- C5 witness: the success path at a concrete service and response. -/
theorem c5_success_trims_witness :
    (generate_summary "sk-live3"
        (fun _ => RemoteOutcome.returns
          ⟨[⟨⟨some " Clear skies expected. "⟩⟩]⟩) "metar" []).1 =
      some (pyStrip " Clear skies expected. ") :=
  (c5_success_trims "sk-live3" "metar" " Clear skies expected. " [] []
    (by decide) (by decide)).1

/-- C6: for every known report kind, the user instruction embeds the
literal raw_text value verbatim when the key is present, and the literal
placeholder "No raw data available" when it is absent; the builder is
total so it never fails on missing keys. -/
theorem c6_raw_text_embedding (report_type : String) (d : ReportData)
    (hk : report_type = "metar" ∨ report_type = "taf" ∨
      report_type = "pirep" ∨ report_type = "sigmet") :
    (∀ v, List.lookup "raw_text" d = some v →
        strContains (create_prompt_for_report report_type d) v) ∧
    (List.lookup "raw_text" d = none →
        strContains (create_prompt_for_report report_type d)
          "No raw data available") := by
  rcases hk with rfl | rfl | rfl | rfl
  · constructor
    · intro v hv
      have h := strContains_append_append
        (metar_prompt_pre ++ d.get "station" "unknown station" ++
          metar_prompt_mid) metar_prompt_post v
      simpa [create_prompt_for_report, ReportData.get, hv] using h
    · intro hv
      have h := strContains_append_append
        (metar_prompt_pre ++ d.get "station" "unknown station" ++
          metar_prompt_mid) metar_prompt_post "No raw data available"
      simpa [create_prompt_for_report, ReportData.get, hv] using h
  · constructor
    · intro v hv
      have h := strContains_append_append
        (taf_prompt_pre ++ d.get "station" "unknown station" ++
          taf_prompt_mid) taf_prompt_post v
      simpa [create_prompt_for_report, ReportData.get, hv] using h
    · intro hv
      have h := strContains_append_append
        (taf_prompt_pre ++ d.get "station" "unknown station" ++
          taf_prompt_mid) taf_prompt_post "No raw data available"
      simpa [create_prompt_for_report, ReportData.get, hv] using h
  · constructor
    · intro v hv
      have h := strContains_append_append pirep_prompt_pre
        pirep_prompt_post v
      simpa [create_prompt_for_report, ReportData.get, hv] using h
    · intro hv
      have h := strContains_append_append pirep_prompt_pre
        pirep_prompt_post "No raw data available"
      simpa [create_prompt_for_report, ReportData.get, hv] using h
  · constructor
    · intro v hv
      have h := strContains_append_append sigmet_prompt_pre
        sigmet_prompt_post v
      simpa [create_prompt_for_report, ReportData.get, hv] using h
    · intro hv
      have h := strContains_append_append sigmet_prompt_pre
        sigmet_prompt_post "No raw data available"
      simpa [create_prompt_for_report, ReportData.get, hv] using h

/-- C6 witness: a present raw_text is embedded verbatim for "metar", and
an absent raw_text yields the placeholder for "sigmet". -/
theorem c6_raw_text_embedding_witness :
    strContains (create_prompt_for_report "metar"
      [("raw_text", "KSEA 251953Z 24010KT 10SM FEW250 22/10 A3002")])
      "KSEA 251953Z 24010KT 10SM FEW250 22/10 A3002" ∧
    strContains (create_prompt_for_report "sigmet" [])
      "No raw data available" :=
  ⟨(c6_raw_text_embedding "metar"
      [("raw_text", "KSEA 251953Z 24010KT 10SM FEW250 22/10 A3002")]
      (Or.inl rfl)).1 _ (by decide),
   (c6_raw_text_embedding "sigmet" []
      (Or.inr (Or.inr (Or.inr rfl)))).2 (by decide)⟩

/-- C7: for any unrecognized report_type with empty data, the user
instruction is the generic template embedding the empty dict
representation, and the fallback text equals the generic fallback
paragraph. -/
theorem c7_unknown_kind_generic (report_type : String)
    (h1 : report_type ≠ "metar") (h2 : report_type ≠ "taf")
    (h3 : report_type ≠ "pirep") (h4 : report_type ≠ "sigmet") :
    create_prompt_for_report report_type [] =
      generic_prompt_pre ++ "\x7b\x7d" ∧
    generate_fallback_summary report_type [] = generic_fallback_text := by
  constructor
  · simp only [create_prompt_for_report, h1, h2, h3, h4, if_false,
      reduceIte]
    rfl
  · simp [generate_fallback_summary, generic_fallback_text, h1, h2, h3]

/-- C7 witness: the generic templates selected at "unknown-type". -/
theorem c7_unknown_kind_generic_witness :
    create_prompt_for_report "unknown-type" [] =
      generic_prompt_pre ++ "\x7b\x7d" :=
  (c7_unknown_kind_generic "unknown-type" (by decide) (by decide)
    (by decide) (by decide)).1

/-- C8: the credential resolves with priority explicit argument, then
environment variable, then settings field (empty and absent values fall
through); a resolved credential that is empty or starts with the
placeholder marker "sk-your-" is stored as "", and otherwise it is stored
unchanged. -/
theorem c8_credential_resolution (a e : Option String) (s : String) :
    (∀ x, a = some x → x ≠ "" → resolve_api_key a e s = x) ∧
    ((a = none ∨ a = some "") →
      ∀ y, e = some y → y ≠ "" → resolve_api_key a e s = y) ∧
    ((a = none ∨ a = some "") → (e = none ∨ e = some "") →
      resolve_api_key a e s = s) ∧
    ((resolve_api_key a e s == "" ||
        pyStartswith (resolve_api_key a e s) "sk-your-") = true →
      init_api_key a e s = "") ∧
    ((resolve_api_key a e s == "" ||
        pyStartswith (resolve_api_key a e s) "sk-your-") = false →
      init_api_key a e s = resolve_api_key a e s) := by
  refine ⟨?_, ?_, ?_, ?_, ?_⟩
  · rintro x rfl hx
    simp [resolve_api_key, pyOrStr, hx]
  · rintro (rfl | rfl) y rfl hy <;>
      simp [resolve_api_key, pyOrStr, hy]
  · rintro (rfl | rfl) (rfl | rfl) <;> simp [resolve_api_key, pyOrStr]
  · intro h
    simp [init_api_key, h]
  · intro h
    simp [init_api_key, h]

/-- C8 witness: the explicit argument wins when usable, and a placeholder
credential resolved from the environment is stored as absent. -/
theorem c8_credential_resolution_witness :
    resolve_api_key (some "sk-abc") (some "sk-env") "sk-set" = "sk-abc" ∧
    init_api_key none (some "sk-your-placeholder") "ignored" = "" :=
  ⟨(c8_credential_resolution (some "sk-abc") (some "sk-env") "sk-set").1
      "sk-abc" rfl (by decide),
   (c8_credential_resolution none (some "sk-your-placeholder")
      "ignored").2.2.2.1 (by decide)⟩

/-- C9: for each known report kind the system instruction is the shared
persona preamble followed by that kind's focus clause, so it contains
both; the builder is a pure function of the kind. -/
theorem c9_system_prompt_contents :
    (strContains (get_system_prompt "metar") base_prompt ∧
     strContains (get_system_prompt "metar") metar_focus) ∧
    (strContains (get_system_prompt "taf") base_prompt ∧
     strContains (get_system_prompt "taf") taf_focus) ∧
    (strContains (get_system_prompt "pirep") base_prompt ∧
     strContains (get_system_prompt "pirep") pirep_focus) ∧
    (strContains (get_system_prompt "sigmet") base_prompt ∧
     strContains (get_system_prompt "sigmet") sigmet_focus) := by
  refine ⟨⟨⟨"", metar_focus, rfl⟩, ⟨base_prompt, "", ?_⟩⟩,
    ⟨⟨"", taf_focus, rfl⟩, ⟨base_prompt, "", ?_⟩⟩,
    ⟨⟨"", pirep_focus, rfl⟩, ⟨base_prompt, "", ?_⟩⟩,
    ⟨⟨"", sigmet_focus, rfl⟩, ⟨base_prompt, "", ?_⟩⟩⟩ <;>
  · rw [String.append_empty]
    rfl

/-- C10: report-kind dispatch is exact, case-sensitive string equality:
any report_type other than the four lowercase names selects the generic
system instruction, the generic user instruction, and the generic
fallback. -/
theorem c10_dispatch_case_sensitive (report_type : String)
    (d : ReportData) (h1 : report_type ≠ "metar")
    (h2 : report_type ≠ "taf") (h3 : report_type ≠ "pirep")
    (h4 : report_type ≠ "sigmet") :
    get_system_prompt report_type = base_prompt ++ generic_focus ∧
    create_prompt_for_report report_type d =
      generic_prompt_pre ++ pyDictRepr d ∧
    generate_fallback_summary report_type d = generic_fallback_text := by
  refine ⟨?_, ?_, ?_⟩ <;>
    simp [get_system_prompt, create_prompt_for_report,
      generate_fallback_summary, generic_fallback_text, h1, h2, h3, h4]

/-- C10 witness: the uppercase spelling "METAR" selects only the generic
templates. -/
theorem c10_dispatch_case_sensitive_witness :
    get_system_prompt "METAR" = base_prompt ++ generic_focus :=
  (c10_dispatch_case_sensitive "METAR" [("station", "KSEA")] (by decide)
    (by decide) (by decide) (by decide)).1
